import Mathlib

/-!
Verification development for the u2api gateway (`src/api/main.go`).

The file shallowly embeds the request/response translation engine of the
handler: the model-name mapping tables, the chat-history projection, the
routing and authorization phases of `Handler`, and the two event-stream
assemblers (`handleNonStreamingResponse`, `handleStreamingResponse`),
together with a model of `encoding/json.Unmarshal` restricted to the
`YouChatResponse` struct (one string field `youChatToken`).
-/

namespace U2Api

/-! ### A model of JSON values and of `encoding/json.Unmarshal` into `YouChatResponse`

`YouChatResponse` has a single field `YouChatToken string` with JSON tag
`youChatToken`.  Go's `json.Unmarshal` first validates the whole input
against the JSON grammar (exact number syntax, string escapes with four
hex digits after `\u`, nesting depth at most 10000, nothing after the
top-level value); on a syntax error it reports the error and leaves the
struct at its zero value.  It then decodes: a top-level `null` leaves the
struct unchanged with a nil error; a top-level value of any other
non-object kind records a type error and leaves the struct unchanged; a
top-level object assigns the field from every key that matches the tag
under `strings.EqualFold` (for this all-ASCII tag: ASCII case folding
extended with U+212A KELVIN SIGN folding to `k` and U+017F LATIN SMALL
LETTER LONG S folding to `s`).  Later matching keys overwrite earlier
assignments, a matching key with value `null` leaves the field unchanged,
and a matching key with a non-string non-null value records a type error,
keeps the field's current value, and decoding continues ("skips that field
and completes the unmarshalling as best it can").  `unmarshalYouChat`
returns the final field value paired with whether `Unmarshal` returned a
nil error: the non-streaming path drops the record exactly when the error
is non-nil, while the streaming path ignores the error and uses whatever
the field holds.  `\uXXXX` escapes follow Go's decoder: a valid
high/low surrogate pair combines into one code point, and a lone surrogate
half becomes U+FFFD.  The model's strings are sequences of Unicode scalar
values, so Go byte strings containing invalid UTF-8 are outside its domain
(Go replaces those bytes with U+FFFD while decoding). -/

/-- JSON values. Numbers are kept as their raw text: no claim inspects them. -/
inductive JsonValue : Type where
  | str (s : String)
  | num (raw : String)
  | boolean (b : Bool)
  | null
  | arr (elems : List JsonValue)
  | obj (fields : List (String × JsonValue))

/-- The character `{` (written by code to keep braces out of literals). -/
def lbrace : Char := Char.ofNat 123

/-- The character `}`. -/
def rbrace : Char := Char.ofNat 125

/-- The character `"`. -/
def dquote : Char := Char.ofNat 34

/-- The character `\`. -/
def bslash : Char := Char.ofNat 92

/-- Skip JSON whitespace (space, tab, newline, carriage return). -/
def skipWs : List Char → List Char
  | [] => []
  | c :: rest =>
    if c = ' ' ∨ c = '\t' ∨ c = '\n' ∨ c = '\r' then skipWs rest else c :: rest

/-- Decode one hex digit. -/
def hexDigit? (c : Char) : Option Nat :=
  if '0' ≤ c ∧ c ≤ '9' then some (c.toNat - '0'.toNat)
  else if 'a' ≤ c ∧ c ≤ 'f' then some (c.toNat - 'a'.toNat + 10)
  else if 'A' ≤ c ∧ c ≤ 'F' then some (c.toNat - 'A'.toNat + 10)
  else none

/-- Combine the four hex digits of a `\u` escape, if all are hex. -/
def hexQuad? (h1 h2 h3 h4 : Char) : Option Nat :=
  match hexDigit? h1, hexDigit? h2, hexDigit? h3, hexDigit? h4 with
  | some a, some b, some c, some d => some (((a * 16 + b) * 16 + c) * 16 + d)
  | _, _, _, _ => none

/-- Parse the body of a JSON string (opening quote already consumed),
returning the decoded string and the rest of the input.  Control characters
below U+0020 are rejected, as Go's scanner does.  A `\u` escape carrying a
high surrogate followed by a `\u` escape carrying a low surrogate combines
into one code point; a lone surrogate half decodes to U+FFFD (consuming
only its own escape), as Go's `unquote` does. -/
def parseStringBody (fuel : Nat) (acc : List Char) (cs : List Char) :
    Option (String × List Char) :=
  match fuel with
  | 0 => none
  | fuel + 1 =>
    match cs with
    | [] => none
    | c :: rest =>
      if c = dquote then some (String.mk acc.reverse, rest)
      else if c = bslash then
        match rest with
        | [] => none
        | e :: rest2 =>
          if e = dquote then parseStringBody fuel (dquote :: acc) rest2
          else if e = bslash then parseStringBody fuel (bslash :: acc) rest2
          else if e = '/' then parseStringBody fuel ('/' :: acc) rest2
          else if e = 'n' then parseStringBody fuel ('\n' :: acc) rest2
          else if e = 't' then parseStringBody fuel ('\t' :: acc) rest2
          else if e = 'r' then parseStringBody fuel ('\r' :: acc) rest2
          else if e = 'b' then parseStringBody fuel (Char.ofNat 8 :: acc) rest2
          else if e = 'f' then parseStringBody fuel (Char.ofNat 12 :: acc) rest2
          else if e = 'u' then
            match rest2 with
            | h1 :: h2 :: h3 :: h4 :: rest3 =>
              match hexQuad? h1 h2 h3 h4 with
              | some code =>
                if 0xD800 ≤ code ∧ code ≤ 0xDBFF then
                  -- high surrogate: combine with a following low surrogate
                  match rest3 with
                  | e2 :: u2 :: g1 :: g2 :: g3 :: g4 :: rest4 =>
                    if e2 = bslash ∧ u2 = 'u' then
                      match hexQuad? g1 g2 g3 g4 with
                      | some code2 =>
                        if 0xDC00 ≤ code2 ∧ code2 ≤ 0xDFFF then
                          parseStringBody fuel
                            (Char.ofNat (0x10000 + (code - 0xD800) * 0x400 +
                              (code2 - 0xDC00)) :: acc) rest4
                        else parseStringBody fuel (Char.ofNat 0xFFFD :: acc) rest3
                      | none => parseStringBody fuel (Char.ofNat 0xFFFD :: acc) rest3
                    else parseStringBody fuel (Char.ofNat 0xFFFD :: acc) rest3
                  | _ => parseStringBody fuel (Char.ofNat 0xFFFD :: acc) rest3
                else if 0xDC00 ≤ code ∧ code ≤ 0xDFFF then
                  parseStringBody fuel (Char.ofNat 0xFFFD :: acc) rest3
                else
                  parseStringBody fuel (Char.ofNat code :: acc) rest3
              | none => none
            | _ => none
          else none
      else if c.toNat < 32 then none
      else parseStringBody fuel (c :: acc) rest

/-- Is `c` an ASCII digit? -/
def isDigitChar (c : Char) : Bool :=
  '0' ≤ c ∧ c ≤ '9'

/-- Consume a run of ASCII digits. -/
def takeDigits : List Char → List Char × List Char
  | [] => ([], [])
  | c :: rest =>
    if isDigitChar c then
      let (ds, rest2) := takeDigits rest
      (c :: ds, rest2)
    else ([], c :: rest)

/-- Integer part of a JSON number after the optional minus sign:
`0` or a nonzero digit followed by digits (no leading zeros). -/
def parseIntPart : List Char → Option (List Char × List Char)
  | [] => none
  | c :: rest =>
    if c = '0' then some ([c], rest)
    else if '1' ≤ c ∧ c ≤ '9' then
      let (ds, rest2) := takeDigits rest
      some (c :: ds, rest2)
    else none

/-- Optional fraction part of a JSON number: a dot must be followed by at
least one digit. -/
def parseFracPart : List Char → Option (List Char × List Char)
  | '.' :: rest =>
    match takeDigits rest with
    | ([], _) => none
    | (ds, rest2) => some ('.' :: ds, rest2)
  | cs => some ([], cs)

/-- Optional exponent part of a JSON number: `e` or `E`, an optional sign,
then at least one digit. -/
def parseExpPart : List Char → Option (List Char × List Char)
  | [] => some ([], [])
  | c :: rest =>
    if c = 'e' ∨ c = 'E' then
      let (sign, rest2) :=
        match rest with
        | s :: t => if s = '+' ∨ s = '-' then ([s], t) else (([] : List Char), s :: t)
        | [] => ([], [])
      match takeDigits rest2 with
      | ([], _) => none
      | (ds, rest3) => some (c :: (sign ++ ds), rest3)
    else some ([], c :: rest)

/-- Parse a JSON number (Go's grammar: optional minus, integer part with no
leading zeros, optional fraction, optional exponent). -/
def parseNumber (cs : List Char) : Option (List Char × List Char) :=
  let (neg, cs1) :=
    match cs with
    | c :: t => if c = '-' then ([c], t) else (([] : List Char), c :: t)
    | [] => ([], [])
  match parseIntPart cs1 with
  | none => none
  | some (ip, cs2) =>
    match parseFracPart cs2 with
    | none => none
    | some (fp, cs3) =>
      match parseExpPart cs3 with
      | none => none
      | some (ep, cs4) => some (neg ++ ip ++ fp ++ ep, cs4)

mutual

/-- Parse one JSON value.  `fuel` bounds recursion and is in no way part of
the modelled semantics; callers supply `input length + 1`, which suffices
since every recursive step consumes at least one character.  `depth` counts
the enclosing open objects and arrays: Go's scanner errors when the nesting
exceeds 10000. -/
def parseValue (fuel : Nat) (depth : Nat) (cs : List Char) :
    Option (JsonValue × List Char) :=
  match fuel with
  | 0 => none
  | fuel + 1 =>
    match skipWs cs with
    | [] => none
    | c :: rest =>
      if c = dquote then
        match parseStringBody fuel [] rest with
        | some (s, rest2) => some (JsonValue.str s, rest2)
        | none => none
      else if c = lbrace then
        if depth ≥ 10000 then none
        else parseObjectFields fuel (depth + 1) true [] rest
      else if c = '[' then
        if depth ≥ 10000 then none
        else parseArrayElems fuel (depth + 1) true [] rest
      else if c = 't' then
        match rest with
        | 'r' :: 'u' :: 'e' :: rest2 => some (JsonValue.boolean true, rest2)
        | _ => none
      else if c = 'f' then
        match rest with
        | 'a' :: 'l' :: 's' :: 'e' :: rest2 => some (JsonValue.boolean false, rest2)
        | _ => none
      else if c = 'n' then
        match rest with
        | 'u' :: 'l' :: 'l' :: rest2 => some (JsonValue.null, rest2)
        | _ => none
      else if c = '-' ∨ isDigitChar c then
        match parseNumber (c :: rest) with
        | some (tk, rest2) => some (JsonValue.num (String.mk tk), rest2)
        | none => none
      else none

/-- Parse the fields of a JSON object (opening brace already consumed).
`first` is true before the first field, so that `{}` is accepted but a
leading comma is not. -/
def parseObjectFields (fuel : Nat) (depth : Nat) (first : Bool)
    (acc : List (String × JsonValue))
    (cs : List Char) : Option (JsonValue × List Char) :=
  match fuel with
  | 0 => none
  | fuel + 1 =>
    match skipWs cs with
    | [] => none
    | c :: rest =>
      if c = rbrace then some (JsonValue.obj acc.reverse, rest)
      else
        let afterComma :=
          if first then some (c :: rest)
          else if c = ',' then some (skipWs rest) else none
        match afterComma with
        | none => none
        | some cs2 =>
          match cs2 with
          | [] => none
          | k :: rest2 =>
            if k = dquote then
              match parseStringBody fuel [] rest2 with
              | some (key, rest3) =>
                match skipWs rest3 with
                | ':' :: rest4 =>
                  match parseValue fuel depth rest4 with
                  | some (v, rest5) =>
                    parseObjectFields fuel depth false ((key, v) :: acc) (skipWs rest5)
                  | none => none
                | _ => none
              | none => none
            else none

/-- Parse the elements of a JSON array (opening bracket already consumed). -/
def parseArrayElems (fuel : Nat) (depth : Nat) (first : Bool) (acc : List JsonValue)
    (cs : List Char) : Option (JsonValue × List Char) :=
  match fuel with
  | 0 => none
  | fuel + 1 =>
    match skipWs cs with
    | [] => none
    | c :: rest =>
      if c = ']' then some (JsonValue.arr acc.reverse, rest)
      else
        let start :=
          if first then some (c :: rest)
          else if c = ',' then some rest else none
        match start with
        | none => none
        | some cs2 =>
          match parseValue fuel depth cs2 with
          | some (v, rest2) => parseArrayElems fuel depth false (v :: acc) (skipWs rest2)
          | none => none

end

/-- Parse a complete JSON document: one value, optionally surrounded by
whitespace, with nothing after it (Go rejects trailing data). -/
def parseJson (s : String) : Option JsonValue :=
  match parseValue (s.data.length + 1) 0 s.data with
  | some (v, rest) => if skipWs rest = [] then some v else none
  | none => none

/-- Case folding used when matching an object key against the field tag
`youChatToken`: ASCII letters fold to lowercase, and the two non-ASCII
characters whose `unicode.SimpleFold` orbit meets an ASCII letter —
U+212A KELVIN SIGN (to `k`) and U+017F LATIN SMALL LETTER LONG S (to
`s`) — fold to that letter.  On keys compared with this all-ASCII tag this
equals Go's `strings.EqualFold`. -/
def foldChar (c : Char) : Char :=
  if 'A' ≤ c ∧ c ≤ 'Z' then Char.ofNat (c.toNat + 32)
  else if c.toNat = 0x212A then 'k'
  else if c.toNat = 0x17F then 's'
  else c

/-- Does object key `k` select the `YouChatToken` field?  Go matches keys to
the tag case-insensitively ("preferring an exact match but also accepting a
case-insensitive match"); with a single field both cases select it. -/
def keyMatchesToken (k : String) : Bool :=
  k.data.map foldChar = "youchattoken".data

/-- Go's `json.Unmarshal` of `s` into `YouChatResponse`, observed as the
pair (final value of the `YouChatToken` field, whether the returned error
was nil).  A syntax error leaves the zero value; a top-level object is
decoded key by key, with a type error on a matching key recorded while
decoding continues and the field keeps its current value. -/
def unmarshalYouChat (s : String) : String × Bool :=
  match parseJson s with
  | some JsonValue.null => ("", true)
  | some (JsonValue.obj fields) =>
    fields.foldl
      (fun acc kv =>
        if keyMatchesToken kv.1 then
          match kv.2 with
          | JsonValue.str t => (t, acc.2)
          | JsonValue.null => acc
          | _ => (acc.1, false)
        else acc)
      ("", true)
  | _ => ("", false)

/-! ### Model name translation (`modelMap`, `mapModelName`, `reverseMapModelName`)

Go's `modelMap` is a map literal; its keys are pairwise distinct (a literal
with duplicate keys does not compile), so lookup in the association list
below in source order agrees with Go map lookup.  `getReverseModelMap`
iterates `modelMap` in unspecified order inserting `reverse[v] = k`; the
result is order-independent exactly when the values are pairwise distinct,
which `modelMap_values_nodup` below establishes, so the reverse map is
faithfully the swapped association list. -/

/-- The forward model table, entries in source order (lines 82-108). -/
def modelMap : List (String × String) :=
  [("deepseek-reasoner", "deepseek_r1"),
   ("deepseek-chat", "deepseek_v3"),
   ("o3-mini-high", "openai_o3_mini_high"),
   ("o3-mini-medium", "openai_o3_mini_medium"),
   ("o1", "openai_o1"),
   ("o1-mini", "openai_o1_mini"),
   ("o1-preview", "openai_o1_preview"),
   ("gpt-4o", "gpt_4o"),
   ("gpt-4o-mini", "gpt_4o_mini"),
   ("gpt-4-turbo", "gpt_4_turbo"),
   ("gpt-3.5-turbo", "gpt_3.5"),
   ("claude-3-opus", "claude_3_opus"),
   ("claude-3-sonnet", "claude_3_sonnet"),
   ("claude-3.5-sonnet", "claude_3_5_sonnet"),
   ("claude-3.5-haiku", "claude_3_5_haiku"),
   ("gemini-1.5-pro", "gemini_1_5_pro"),
   ("gemini-1.5-flash", "gemini_1_5_flash"),
   ("llama-3.2-90b", "llama3_2_90b"),
   ("llama-3.1-405b", "llama3_1_405b"),
   ("mistral-large-2", "mistral_large_2"),
   ("qwen-2.5-72b", "qwen2p5_72b"),
   ("qwen-2.5-coder-32b", "qwen2p5_coder_32b"),
   ("command-r-plus", "command_r_plus"),
   ("claude-3-7-sonnet", "claude_3_7_sonnet"),
   ("claude-3-7-sonnet-think", "claude_3_7_sonnet_thinking")]

/-- The reverse table `getReverseModelMap` (value/key pairs). -/
def getReverseModelMap : List (String × String) :=
  modelMap.map Prod.swap

/-- Forward lookup `mapModelName`, defaulting to `"deepseek_v3"` on a miss. -/
def mapModelName (openAIModel : String) : String :=
  match modelMap.lookup openAIModel with
  | some mappedModel => mappedModel
  | none => "deepseek_v3"

/-- Reverse lookup `reverseMapModelName`, defaulting to `"deepseek-chat"`. -/
def reverseMapModelName (youModel : String) : String :=
  match getReverseModelMap.lookup youModel with
  | some mappedModel => mappedModel
  | none => "deepseek-chat"

/-! ### Request data model and history projection -/

/-- Go's `strings.HasPrefix(s, pre)`, computed on the character lists (equivalent
to Go's byte-level check on valid UTF-8 strings). -/
def hasPre (s pre : String) : Bool :=
  pre.data.isPrefixOf s.data

/-- Remove the first `pre.length` characters of `s` (used only after a
`hasPre` check, so together they are `strings.TrimPrefix`). -/
def dropPre (s pre : String) : String :=
  String.mk (s.data.drop pre.data.length)

/-- A `Message` is one client chat message. -/
structure Message : Type where
  role : String
  content : String
deriving DecidableEq, Repr

/-- An `OpenAIRequest` is the decoded client request body. -/
structure OpenAIRequest : Type where
  messages : List Message
  stream : Bool
  model : String
deriving DecidableEq, Repr

/-- A history record sent upstream: the `map[string]interface` value with
keys `question` and `answer` built in the history loop (lines 212-224). -/
structure HistoryRecord : Type where
  question : String
  answer : String
deriving DecidableEq, Repr

/-- One step of the history loop: the record starts as
`question = content, answer = ""` and the fields are swapped when the role
is `assistant`. -/
def projectMessage (msg : Message) : HistoryRecord :=
  if msg.role = "assistant" then ⟨"", msg.content⟩ else ⟨msg.content, ""⟩

/-- The history loop over all messages, in order. -/
def buildChatHistory (msgs : List Message) : List HistoryRecord :=
  msgs.map projectMessage

/-! ### Handler routing, authorization and query construction -/

/-- The claim-relevant query parameters of the outbound You.com request:
`q`, `pastChatLength` (a Go `int`, so `-1` would be possible), the
`selectedAiModel`, and the history serialized into the `chat` parameter. -/
structure UpstreamQuery : Type where
  q : String
  pastChatLength : Int
  selectedAiModel : String
  chat : List HistoryRecord
deriving DecidableEq, Repr

/-- Query construction from the decoded request (lines 208-247):
`lastMessage` is the content of the final message, `pastChatLength` is
`len(chatHistory)-1`, `selectedAiModel` is `mapModelName` of the request
model. -/
def buildUpstreamQuery (req : OpenAIRequest) (lastMsg : Message) : UpstreamQuery :=
  let chatHistory := buildChatHistory req.messages
  ⟨lastMsg.content, (chatHistory.length : Int) - 1, mapModelName req.model, chatHistory⟩

/-- The observable outcome of `Handler` up to the point where one of the two
response handlers takes over.  `panicEmptyMessages` models the Go runtime
panic raised by `openAIReq.Messages[len(openAIReq.Messages)-1]` when the
messages slice is empty (index `-1` is out of range).  `badRequest` is a 400
for an undecodable body, `unauthorized` a 401.  `upstreamCall q stream` is
the state in which the outbound upstream request is constructed and handed
to the streaming (`stream = true`) or non-streaming handler. -/
inductive HandlerOutcome : Type where
  | modelsList
  | statusInfo
  | corsPreflightOk
  | unauthorized
  | badRequest
  | panicEmptyMessages
  | upstreamCall (q : UpstreamQuery) (stream : Bool)
deriving DecidableEq, Repr

/-- Is `path` one of the three chat-completions paths? -/
def isChatPath (path : String) : Prop :=
  path = "/v1/chat/completions" ∨ path = "/none/v1/chat/completions" ∨
    path = "/such/chat/completions"

instance (path : String) : Decidable (isChatPath path) := by
  unfold isChatPath; infer_instance

/-- The behavior of `Handler` (lines 138-250) up to the dispatch to a response handler.
The request body is modelled as `none` when JSON decoding fails and
`some req` when it yields `req`. -/
def handlerPhase (path method auth : String) (body : Option OpenAIRequest) :
    HandlerOutcome :=
  if path = "/v1/models" ∨ path = "/api/v1/models" then
    if method = "OPTIONS" then HandlerOutcome.corsPreflightOk
    else HandlerOutcome.modelsList
  else if ¬ isChatPath path then HandlerOutcome.statusInfo
  else if method = "OPTIONS" then HandlerOutcome.corsPreflightOk
  else if ¬ hasPre auth "Bearer " then HandlerOutcome.unauthorized
  else
    match body with
    | none => HandlerOutcome.badRequest
    | some req =>
      match req.messages.getLast? with
      | none => HandlerOutcome.panicEmptyMessages
      | some lastMsg =>
        HandlerOutcome.upstreamCall (buildUpstreamQuery req lastMsg) req.stream

/-! ### Event-stream decoding and the two assemblers

Both handlers scan the upstream body line by line with `bufio.Scanner`.
When a line has the token-event marker they call `scanner.Scan()` once more
and read `scanner.Text()` as the data line; if the stream is already
exhausted, `Scan` returns `false` and `Text` returns the empty string, after
which the enclosing loop also terminates.  The line lists below are the
sequence of lines `Scan` yields before end of stream. -/

/-- Does `line` start the token-event marker
(`strings.HasPrefix(line, "event: youChatToken")`)? -/
def isTokenEventLine (line : String) : Bool :=
  hasPre line "event: youChatToken"

/-- Go's `strings.TrimPrefix(data, "data: ")`. -/
def trimData (data : String) : String :=
  if hasPre data "data: " then dropPre data "data: " else data

/-- The non-streaming handler's treatment of a data line (lines 322-331):
`none` when the line lacks the `"data: "` marker or `Unmarshal` returns a
non-nil error (both `continue`), otherwise the token text. -/
def decodeTokenData (data : String) : Option String :=
  if hasPre data "data: " then
    match unmarshalYouChat (dropPre data "data: ") with
    | (t, true) => some t
    | (_, false) => none
  else none

/-- The streaming handler's treatment of a data line (lines 389-391): the
`"data: "` marker is trimmed if present, the `Unmarshal` error is ignored,
and whatever the error-tolerant decode left in the token field is used —
the zero value (empty string) when nothing was assigned. -/
def streamTokenOf (data : String) : String :=
  (unmarshalYouChat (trimData data)).1

/-- The scan loop of `handleNonStreamingResponse` (lines 318-332): the final
contents of the `fullResponse` builder given the upstream body's lines.  A
marker line consumes the following line as its data line; a marker at end of
stream reads the empty string, which lacks the `"data: "` marker and
contributes nothing. -/
def handleNonStreamingLines : List String → String
  | [] => ""
  | line :: rest =>
    if isTokenEventLine line then
      match rest with
      | [] => ""
      | data :: rest2 =>
        match decodeTokenData data with
        | some t => t ++ handleNonStreamingLines rest2
        | none => handleNonStreamingLines rest2
    else handleNonStreamingLines rest

/-- The scan loop of `handleStreamingResponse` (lines 381-412): the delta
contents of the chunks written to the client, in emission order (one chunk
is emitted per marker line, unconditionally).  A marker at end of stream
reads the empty string as its data line and still emits a chunk. -/
def handleStreamingLines : List String → List String
  | [] => []
  | line :: rest =>
    if isTokenEventLine line then
      match rest with
      | [] => [streamTokenOf ""]
      | data :: rest2 => streamTokenOf data :: handleStreamingLines rest2
    else handleStreamingLines rest

/-- An `OpenAIChoice` is one element of the non-streaming response's choices. -/
structure OpenAIChoice : Type where
  message : Message
  index : Nat
  finishReason : String
deriving DecidableEq, Repr

/-- An `OpenAIResponse` is the non-streaming client response body. -/
structure OpenAIResponse : Type where
  id : String
  object : String
  created : Int
  model : String
  choices : List OpenAIChoice
deriving DecidableEq, Repr

/-- The response built by `handleNonStreamingResponse` (lines 340-355) from
the saved original model name and the upstream body's lines; `now` stands
for the wall-clock `time.Now().Unix()` reading. -/
def buildNonStreamingResponse (originalModel : String) (now : Int)
    (lines : List String) : OpenAIResponse :=
  { id := "chatcmpl-" ++ toString now
    object := "chat.completion"
    created := now
    model := reverseMapModelName (mapModelName originalModel)
    choices := [{ message := ⟨"assistant", handleNonStreamingLines lines⟩
                  index := 0
                  finishReason := "stop" }] }

/-- The `Delta` of one streaming chunk together with its fixed companions: the
chunk written per token by `handleStreamingResponse` carries
`index = 0` and an empty finish reason. -/
structure StreamChunk : Type where
  deltaContent : String
  index : Nat
  finishReason : String
deriving DecidableEq, Repr

/-- The chunks written by the streaming handler for the given upstream
lines. -/
def emittedChunks (lines : List String) : List StreamChunk :=
  (handleStreamingLines lines).map (fun t => ⟨t, 0, ""⟩)

/-- The relation `Paired lines ds` states that the line sequence `lines` is an interleaving of
non-marker lines and complete marker/data pairs whose data lines are `ds`,
in order.  This is the shape "every token event consists of a marker line
followed by a data line". -/
inductive Paired : List String → List String → Prop where
  | nil : Paired [] []
  | plain (l : String) (rest ds : List String) :
      isTokenEventLine l = false → Paired rest ds → Paired (l :: rest) ds
  | pair (l d : String) (rest ds : List String) :
      isTokenEventLine l = true → Paired rest ds → Paired (l :: d :: rest) (d :: ds)

/-- The non-streaming output contributed by a list of data lines. -/
def tokensConcat : List String → String
  | [] => ""
  | d :: ds =>
    (match decodeTokenData d with
     | some t => t
     | none => "") ++ tokensConcat ds

/-! ### Supporting lemmas

The two `Nodup` facts justify the association-list embedding of the Go map:
distinct keys make `List.lookup` agree with Go map lookup, and distinct
values make `getReverseModelMap` independent of Go's randomized map
iteration order.  The unfolding lemmas restate the scan loops one consumed
line (or marker/data pair) at a time, and the append lemmas push a loop
through a well-paired block of lines. -/

/-- The forward table's keys are pairwise distinct. -/
theorem modelMap_keys_nodup : (modelMap.map Prod.fst).Nodup := by decide

/-- The forward table's values are pairwise distinct, so no forward entry
loses its reverse mapping to a collision. -/
theorem modelMap_values_nodup : (modelMap.map Prod.snd).Nodup := by decide

/-- A non-marker line is skipped by the non-streaming loop. -/
theorem handleNS_skip (l : String) (rest : List String)
    (hl : isTokenEventLine l = false) :
    handleNonStreamingLines (l :: rest) = handleNonStreamingLines rest := by
  cases rest <;> simp [handleNonStreamingLines, hl]

/-- A marker/data pair with a decodable data line appends its token. -/
theorem handleNS_pair_some (l d : String) (rest : List String) (t : String)
    (hl : isTokenEventLine l = true) (hd : decodeTokenData d = some t) :
    handleNonStreamingLines (l :: d :: rest) = t ++ handleNonStreamingLines rest := by
  simp [handleNonStreamingLines, hl, hd]

/-- A marker/data pair with an undecodable data line is dropped. -/
theorem handleNS_pair_none (l d : String) (rest : List String)
    (hl : isTokenEventLine l = true) (hd : decodeTokenData d = none) :
    handleNonStreamingLines (l :: d :: rest) = handleNonStreamingLines rest := by
  simp [handleNonStreamingLines, hl, hd]

/-- A marker at end of stream contributes nothing to the buffered output. -/
theorem handleNS_single (l : String) (hl : isTokenEventLine l = true) :
    handleNonStreamingLines [l] = "" := by
  simp [handleNonStreamingLines, hl]

/-- A non-marker line is skipped by the streaming loop. -/
theorem handleSL_skip (l : String) (rest : List String)
    (hl : isTokenEventLine l = false) :
    handleStreamingLines (l :: rest) = handleStreamingLines rest := by
  cases rest <;> simp [handleStreamingLines, hl]

/-- A marker/data pair emits exactly one chunk in the streaming loop. -/
theorem handleSL_pair (l d : String) (rest : List String)
    (hl : isTokenEventLine l = true) :
    handleStreamingLines (l :: d :: rest) = streamTokenOf d :: handleStreamingLines rest := by
  simp [handleStreamingLines, hl]

/-- A marker at end of stream still emits one chunk, decoded from the empty
string that `scanner.Text()` returns after the failed `Scan`. -/
theorem handleSL_single (l : String) (hl : isTokenEventLine l = true) :
    handleStreamingLines [l] = [streamTokenOf ""] := by
  simp [handleStreamingLines, hl]

/-- The non-streaming loop processes a well-paired block and continues with
the remaining lines. -/
theorem handleNonStreamingLines_append (lines ds : List String) (h : Paired lines ds) :
    ∀ tail, handleNonStreamingLines (lines ++ tail) =
      tokensConcat ds ++ handleNonStreamingLines tail := by
  induction h with
  | nil => intro tail; simp [tokensConcat]
  | plain l rest ds hl hp ih =>
    intro tail
    rw [List.cons_append, handleNS_skip l _ hl, ih tail]
  | pair l d rest ds hl hp ih =>
    intro tail
    rw [List.cons_append, List.cons_append]
    cases hd : decodeTokenData d with
    | some t =>
      rw [handleNS_pair_some l d _ t hl hd, ih tail]
      simp [tokensConcat, hd, String.append_assoc]
    | none =>
      rw [handleNS_pair_none l d _ hl hd, ih tail]
      simp [tokensConcat, hd]

/-- The streaming loop processes a well-paired block and continues with the
remaining lines. -/
theorem handleStreamingLines_append (lines ds : List String) (h : Paired lines ds) :
    ∀ tail, handleStreamingLines (lines ++ tail) =
      ds.map streamTokenOf ++ handleStreamingLines tail := by
  induction h with
  | nil => intro tail; rfl
  | plain l rest ds hl hp ih =>
    intro tail
    rw [List.cons_append, handleSL_skip l _ hl, ih tail]
  | pair l d rest ds hl hp ih =>
    intro tail
    rw [List.cons_append, List.cons_append, handleSL_pair l d _ hl, ih tail]
    simp

/-- The empty data line read at end of stream decodes to the empty token. -/
theorem streamTokenOf_empty : streamTokenOf "" = "" := by decide

/-! ### The claims -/

/-- Claim C1: end-to-end example.  For the request with messages
`[(user, Hi)]`, model `gpt-4o` and `stream = false`, the handler reaches the
upstream-call stage with query text `Hi`, `pastChatLength = 0`,
`selectedAiModel = gpt_4o` and history `[(question Hi, answer empty)]`; and
when the upstream stream carries exactly the tokens `Hel` then `lo!`, the
non-streaming client response has content `Hello!`, model `gpt-4o` and
finish reason `stop`. -/
theorem endToEnd_example :
    handlerPhase "/v1/chat/completions" "POST" "Bearer userDsToken"
        (some ⟨[⟨"user", "Hi"⟩], false, "gpt-4o"⟩) =
      HandlerOutcome.upstreamCall ⟨"Hi", 0, "gpt_4o", [⟨"Hi", ""⟩]⟩ false ∧
    buildNonStreamingResponse "gpt-4o" 1700000000
        ["event: youChatToken", "data: \x7b\"youChatToken\":\"Hel\"\x7d",
         "event: youChatToken", "data: \x7b\"youChatToken\":\"lo!\"\x7d"] =
      ⟨"chatcmpl-1700000000", "chat.completion", 1700000000, "gpt-4o",
       [⟨⟨"assistant", "Hello!"⟩, 0, "stop"⟩]⟩ :=
  ⟨by decide, by decide⟩

/-- Claim C2 (counterexample): the claim "for each output element exactly
one of question/answer is non-empty" fails at the concrete input message
`(user, empty content)`, whose output record has both fields empty. -/
theorem history_projection_cex :
    buildChatHistory [⟨"user", ""⟩] = [⟨"", ""⟩] ∧
    ¬ (((⟨"", ""⟩ : HistoryRecord).question ≠ "" ∧ (⟨"", ""⟩ : HistoryRecord).answer = "") ∨
       ((⟨"", ""⟩ : HistoryRecord).question = "" ∧ (⟨"", ""⟩ : HistoryRecord).answer ≠ "")) := by
  decide

/-- Claim C2 (amended): for every non-empty input message sequence, the
history has the same length and order, each assistant message maps to
`(question empty, answer content)`, any other role to
`(question content, answer empty)`, at most one field of each record is
non-empty, and exactly one whenever the message's content is non-empty. -/
theorem history_projection (msgs : List Message) (_hne : msgs ≠ []) :
    (buildChatHistory msgs).length = msgs.length ∧
    ∀ (i : Nat) (m : Message), msgs[i]? = some m →
      (buildChatHistory msgs)[i]? = some (projectMessage m) ∧
      (m.role = "assistant" → projectMessage m = ⟨"", m.content⟩) ∧
      (m.role ≠ "assistant" → projectMessage m = ⟨m.content, ""⟩) ∧
      ((projectMessage m).question = "" ∨ (projectMessage m).answer = "") ∧
      (m.content ≠ "" →
        ((projectMessage m).question ≠ "" ∧ (projectMessage m).answer = "") ∨
        ((projectMessage m).question = "" ∧ (projectMessage m).answer ≠ "")) := by
  refine ⟨by simp [buildChatHistory], ?_⟩
  intro i m hm
  refine ⟨by simp [buildChatHistory, hm], ?_, ?_, ?_, ?_⟩
  · intro hr; simp [projectMessage, hr]
  · intro hr; simp [projectMessage, hr]
  · by_cases hr : m.role = "assistant"
    · left; simp [projectMessage, hr]
    · right; simp [projectMessage, hr]
  · intro hc
    by_cases hr : m.role = "assistant"
    · right; simp [projectMessage, hr, hc]
    · left; simp [projectMessage, hr, hc]

/-- Witness for C2's amended claim at the single message `(user, Hi)`. -/
theorem history_projection_witness :
    (buildChatHistory [⟨"user", "Hi"⟩]).length = 1 ∧
    (buildChatHistory [⟨"user", "Hi"⟩])[0]? = some (projectMessage ⟨"user", "Hi"⟩) := by
  have h := history_projection [⟨"user", "Hi"⟩] (by decide)
  exact ⟨h.1, (h.2 0 ⟨"user", "Hi"⟩ rfl).1⟩

/-- Claim C3: token decode robustness for the buffering assembler.  For a
stream made of a well-formed marker/data pair, a marker whose data line is
malformed (wrong tag or unparseable JSON, i.e. `decodeTokenData` is `none`),
and another well-formed pair, the buffered output is exactly the
concatenation of the two well-formed tokens, in order. -/
theorem token_decode_robust (e1 e2 e3 bad d1 d2 : String) (t1 t2 : String)
    (he1 : isTokenEventLine e1 = true) (he2 : isTokenEventLine e2 = true)
    (he3 : isTokenEventLine e3 = true)
    (h1 : decodeTokenData d1 = some t1) (h2 : decodeTokenData d2 = some t2)
    (hbad : decodeTokenData bad = none) :
    handleNonStreamingLines [e1, d1, e2, bad, e3, d2] = t1 ++ t2 := by
  rw [handleNS_pair_some e1 d1 _ t1 he1 h1, handleNS_pair_none e2 bad _ he2 hbad,
    handleNS_pair_some e3 d2 _ t2 he3 h2]
  simp [handleNonStreamingLines]

/-- Witness for C3 with tokens `Hel` and `lo!` around a malformed line. -/
theorem token_decode_robust_witness :
    handleNonStreamingLines
      ["event: youChatToken", "data: \x7b\"youChatToken\":\"Hel\"\x7d",
       "event: youChatToken", "data: oops",
       "event: youChatToken", "data: \x7b\"youChatToken\":\"lo!\"\x7d"] = "Hel" ++ "lo!" :=
  token_decode_robust _ _ _ _ _ _ "Hel" "lo!" (by decide) (by decide) (by decide)
    (by decide) (by decide) (by decide)

/-- Claim C4: streaming chunk count.  For every upstream stream that is an
interleaving of non-marker lines and exactly `K` complete marker/data pairs,
the streaming assembler emits exactly `K` chunks, the `i`-th carrying the
`i`-th pair's decoded token text as its delta content, in arrival order,
each with index `0` and an empty finish reason. -/
theorem streaming_chunk_count (lines ds : List String) (h : Paired lines ds) :
    handleStreamingLines lines = ds.map streamTokenOf ∧
    (handleStreamingLines lines).length = ds.length ∧
    emittedChunks lines = ds.map (fun d => ⟨streamTokenOf d, 0, ""⟩) := by
  have happ := handleStreamingLines_append lines ds h []
  have hnil : handleStreamingLines ([] : List String) = [] := rfl
  rw [List.append_nil, hnil, List.append_nil] at happ
  refine ⟨happ, by rw [happ]; simp, ?_⟩
  rw [emittedChunks, happ]
  simp [Function.comp]

/-- Witness for C4 on a stream with one noise line and two token events. -/
theorem streaming_chunk_count_witness :
    handleStreamingLines
      ["noise", "event: youChatToken", "data: \x7b\"youChatToken\":\"A\"\x7d",
       "event: youChatToken", "data: \x7b\"youChatToken\":\"B\"\x7d"] =
      ["data: \x7b\"youChatToken\":\"A\"\x7d",
       "data: \x7b\"youChatToken\":\"B\"\x7d"].map streamTokenOf :=
  (streaming_chunk_count _ _
    (Paired.plain _ _ _ (by decide)
      (Paired.pair _ _ _ _ (by decide)
        (Paired.pair _ _ _ _ (by decide) Paired.nil)))).1

/-- Claim C5: model mapping round-trip.  Every key of the forward table maps
back to itself through the upstream name: no forward entry loses its reverse
mapping to a value collision. -/
theorem model_roundtrip : ∀ p ∈ modelMap, reverseMapModelName (mapModelName p.1) = p.1 := by
  decide

/-- Witness for C5 at the entry `(gpt-4o, gpt_4o)`. -/
theorem model_roundtrip_witness :
    (("gpt-4o", "gpt_4o") ∈ modelMap) ∧
    reverseMapModelName (mapModelName "gpt-4o") = "gpt-4o" :=
  ⟨by decide, model_roundtrip ("gpt-4o", "gpt_4o") (by decide)⟩

/-- Claim C6: mapping totality with silent defaults.  Both directions are
total Lean functions by construction; every client identifier missing from
the forward table maps to the fixed default `deepseek_v3`, and every
upstream identifier missing from the reverse table maps to the fixed
default `deepseek-chat`. -/
theorem mapping_defaults :
    (∀ m, modelMap.lookup m = none → mapModelName m = "deepseek_v3") ∧
    (∀ y, getReverseModelMap.lookup y = none → reverseMapModelName y = "deepseek-chat") := by
  constructor <;> intro x hx <;> simp [mapModelName, reverseMapModelName, hx]

/-- Witness for C6 at identifiers absent from both tables. -/
theorem mapping_defaults_witness :
    mapModelName "no-such-model" = "deepseek_v3" ∧
    reverseMapModelName "no_such_model" = "deepseek-chat" :=
  ⟨mapping_defaults.1 "no-such-model" (by decide),
   mapping_defaults.2 "no_such_model" (by decide)⟩

/-- Claim C7 (counterexample): the claim quantifies over every request, but
a request for the model-listing path with an empty Authorization header
(which does not start with the Bearer marker) is answered with the model
list, not with 401. -/
theorem auth_gate_cex :
    hasPre "" "Bearer " = false ∧
    handlerPhase "/v1/models" "GET" "" none = HandlerOutcome.modelsList ∧
    handlerPhase "/v1/models" "GET" "" none ≠ HandlerOutcome.unauthorized := by
  decide

/-- Claim C7 (amended): for every chat-completions request (one of the three
chat paths, method not OPTIONS) whose Authorization header does not start
with the Bearer marker, the handler answers 401 and never reaches the
upstream-call stage. -/
theorem auth_gate (path method auth : String) (body : Option OpenAIRequest)
    (hpath : isChatPath path) (hm : method ≠ "OPTIONS")
    (ha : hasPre auth "Bearer " = false) :
    handlerPhase path method auth body = HandlerOutcome.unauthorized := by
  rcases hpath with h | h | h <;> subst h <;>
    simp +decide [handlerPhase, hm, ha, isChatPath]

/-- Witness for C7's amended claim at a header with the wrong scheme. -/
theorem auth_gate_witness :
    handlerPhase "/v1/chat/completions" "POST" "Token abc"
      (some ⟨[⟨"user", "Hi"⟩], false, "gpt-4o"⟩) = HandlerOutcome.unauthorized :=
  auth_gate _ _ _ _ (Or.inl rfl) (by decide) (by decide)

/-- Claim C8 (counterexample): for a stream that is just one marker line,
the streaming assembler emits one chunk (with empty delta), so its output is
not "exactly the tokens emitted before the truncated pair" (none). -/
theorem truncated_pair_cex :
    handleStreamingLines ["event: youChatToken"] = [""] ∧
    handleStreamingLines ["event: youChatToken"] ≠ ([] : List String) := by
  decide

/-- Claim C8 (amended): for every stream that ends right after a marker
line, both decoders terminate; the buffering assembler's output is exactly
the tokens of the preceding pairs, with nothing extra, while the streaming
assembler emits the preceding pairs' chunks plus one extra chunk with empty
delta content for the truncated pair. -/
theorem truncated_pair (body ds : List String) (ev : String)
    (h : Paired body ds) (hev : isTokenEventLine ev = true) :
    handleNonStreamingLines (body ++ [ev]) = tokensConcat ds ∧
    handleStreamingLines (body ++ [ev]) = ds.map streamTokenOf ++ [""] := by
  have h1 := handleNonStreamingLines_append body ds h [ev]
  have h2 := handleStreamingLines_append body ds h [ev]
  rw [handleNS_single ev hev] at h1
  rw [handleSL_single ev hev, streamTokenOf_empty] at h2
  refine ⟨?_, h2⟩
  rw [h1]; simp

/-- Witness for C8's amended claim: one complete pair, then a truncated
marker. -/
theorem truncated_pair_witness :
    handleNonStreamingLines
      ["event: youChatToken", "data: \x7b\"youChatToken\":\"A\"\x7d", "event: youChatToken"] =
      tokensConcat ["data: \x7b\"youChatToken\":\"A\"\x7d"] ∧
    handleStreamingLines
      ["event: youChatToken", "data: \x7b\"youChatToken\":\"A\"\x7d", "event: youChatToken"] =
      ["data: \x7b\"youChatToken\":\"A\"\x7d"].map streamTokenOf ++ [""] :=
  truncated_pair _ _ _ (Paired.pair _ _ _ _ (by decide) Paired.nil) (by decide)

/-- Claim C9: the empty-messages access is not guarded.  For a correctly
routed, authorized chat request whose body decodes, an empty messages list
sends the handler into the out-of-range access
`Messages[len(Messages)-1]` (a Go runtime panic, modelled as
`panicEmptyMessages`), and a non-empty list reaches the upstream call with
the last message, so the access is total only under the non-emptiness
precondition. -/
theorem empty_messages_panic (path method auth : String) (req : OpenAIRequest)
    (hpath : isChatPath path) (hm : method ≠ "OPTIONS")
    (ha : hasPre auth "Bearer " = true) :
    (req.messages = [] →
      handlerPhase path method auth (some req) = HandlerOutcome.panicEmptyMessages) ∧
    (∀ lastMsg, req.messages.getLast? = some lastMsg →
      handlerPhase path method auth (some req) =
        HandlerOutcome.upstreamCall (buildUpstreamQuery req lastMsg) req.stream) := by
  constructor
  · intro hempty
    rcases hpath with h | h | h <;> subst h <;>
      simp +decide [handlerPhase, hm, ha, hempty, isChatPath]
  · intro lastMsg hlast
    rcases hpath with h | h | h <;> subst h <;>
      simp +decide [handlerPhase, hm, ha, hlast, isChatPath]

/-- Witness for C9 at an authorized request with an empty messages list. -/
theorem empty_messages_panic_witness :
    handlerPhase "/v1/chat/completions" "POST" "Bearer abc"
      (some ⟨[], false, "gpt-4o"⟩) = HandlerOutcome.panicEmptyMessages :=
  (empty_messages_panic _ _ _ _ (Or.inl rfl) (by decide) (by decide)).1 rfl

/-- Claim C10 (counterexample): the claim says every malformed data line
yields a chunk with empty delta; but a data line that lacks the data tag yet
is valid JSON (malformed for the buffering assembler, `decodeTokenData`
is `none`) produces a streaming chunk whose delta is the parsed token `x`,
not the empty string. -/
theorem malformed_stream_cex :
    decodeTokenData "\x7b\"youChatToken\":\"x\"\x7d" = none ∧
    handleStreamingLines ["event: youChatToken", "\x7b\"youChatToken\":\"x\"\x7d"] = ["x"] ∧
    ("x" : String) ≠ "" := by
  decide

/-- Claim C10 (amended): a marker whose data line makes the non-streaming
decode fail (no data tag, a JSON syntax error, or a type error) is dropped
by the buffering assembler but not by the streaming assembler, which still
emits exactly one chunk; that chunk's delta is whatever the error-ignoring
`Unmarshal` of the tag-trimmed line left in the token field (the empty
string when nothing was assigned, the partially decoded or prefix-lessly
parsed token otherwise) — so the two assemblers disagree on
malformed-record tolerance. -/
theorem malformed_stream (ev bad : String) (hev : isTokenEventLine ev = true)
    (hbad : decodeTokenData bad = none) :
    handleNonStreamingLines [ev, bad] = "" ∧
    handleStreamingLines [ev, bad] = [streamTokenOf bad] := by
  refine ⟨?_, ?_⟩
  · rw [handleNS_pair_none ev bad [] hev hbad]; rfl
  · rw [handleSL_pair ev bad [] hev]; rfl

/-- Witness for C10's amended claim at a data line with unparseable JSON. -/
theorem malformed_stream_witness :
    handleNonStreamingLines ["event: youChatToken", "data: bad json"] = "" ∧
    handleStreamingLines ["event: youChatToken", "data: bad json"] =
      [streamTokenOf "data: bad json"] :=
  malformed_stream _ _ (by decide) (by decide)

end U2Api
